import Mathlib

/-!
Shallow embedding of `src/src/lib.rs` (functions `add` and `greet`).

Machine integers are modelled as `Int` with the signed 32-bit bounds made
explicit; the `console::error_1` side effect is modelled as an explicit log
component in the result.
-/

/-- Smallest signed 32-bit integer. -/
def i32Min : Int := -2147483648

/-- Largest signed 32-bit integer. -/
def i32Max : Int := 2147483647

/-- `x` is representable as a signed 32-bit integer. -/
def i32InRange (x : Int) : Prop := i32Min ≤ x ∧ x ≤ i32Max

instance (x : Int) : Decidable (i32InRange x) := by
  unfold i32InRange
  infer_instance

/-- Result of an operation together with the diagnostic messages it emitted
to the external logging sink (`web_sys::console`). -/
structure EffResult (α : Type) where
  value : α
  log : List String
deriving DecidableEq

/-- The diagnostic text sent to the console on overflow in `add`. -/
def overflowMsg : String := "Integer overflow occurred"

/-- Rust `i32::checked_add`: `some (a + b)` when the sum is representable
as a signed 32-bit integer, `none` otherwise. -/
def checked_add (a b : Int) : Option Int :=
  if i32InRange (a + b) then some (a + b) else none

/-- `pub fn add(a: i32, b: i32) -> i32`: `a.checked_add(b).unwrap_or_else(...)`
returning the sum, or logging "Integer overflow occurred" and returning 0. -/
def add (a b : Int) : EffResult Int :=
  match checked_add a b with
  | some s => ⟨s, []⟩
  | none => ⟨0, [overflowMsg]⟩

/-- `pub fn greet(name: &str) -> String`: Rust `name.len()` is the UTF-8
byte length of the string, which `String.utf8ByteSize` models. -/
def greet (name : String) : EffResult String :=
  if name.utf8ByteSize > 1000 then ⟨"Error: Input too long", []⟩
  else ⟨"Hello, " ++ name ++ "!", []⟩

/-- `add` unfolded at a representable sum. -/
lemma add_eq_of_inRange (a b : Int) (h : i32InRange (a + b)) :
    add a b = ⟨a + b, []⟩ := by
  simp [add, checked_add, h]

/-- `add` unfolded at an unrepresentable sum. -/
lemma add_eq_of_overflow (a b : Int) (h : ¬ i32InRange (a + b)) :
    add a b = ⟨0, [overflowMsg]⟩ := by
  simp [add, checked_add, h]

/-- `greet` unfolded at a short name. -/
lemma greet_eq_of_short (name : String) (h : name.utf8ByteSize ≤ 1000) :
    greet name = ⟨"Hello, " ++ name ++ "!", []⟩ := by
  simp [greet, Nat.not_lt.mpr h]

/-- `greet` unfolded at a long name. -/
lemma greet_eq_of_long (name : String) (h : 1000 < name.utf8ByteSize) :
    greet name = ⟨"Error: Input too long", []⟩ := by
  simp [greet, h]

/-- The greeting form is never the empty string. -/
lemma hello_ne_empty (name : String) : "Hello, " ++ name ++ "!" ≠ "" := by
  intro h
  have h2 : ("Hello, " ++ name ++ "!").data = "".data := by rw [h]
  simp [String.data_append] at h2

set_option maxRecDepth 10000

/-- Claim C1: for every pair of signed 32-bit integers `a` and `b` whose
mathematical sum is representable as a signed 32-bit integer, `add a b`
returns exactly `a + b`. -/
theorem add_returns_sum_when_representable (a b : Int)
    (ha : i32InRange a) (hb : i32InRange b) (h : i32InRange (a + b)) :
    (add a b).value = a + b := by
  rw [add_eq_of_inRange a b h]

theorem add_returns_sum_when_representable_witness :
    i32InRange 2 ∧ i32InRange 3 ∧ i32InRange (2 + 3) ∧ (add 2 3).value = 2 + 3 :=
  ⟨by decide, by decide, by decide,
    add_returns_sum_when_representable 2 3 (by decide) (by decide) (by decide)⟩

/-- Claim C2: for every pair of signed 32-bit integers `a` and `b` whose
mathematical sum is not representable as a signed 32-bit integer, `add a b`
returns exactly 0 and emits exactly one diagnostic "Integer overflow
occurred" to the logging sink; the emission does not change the value. -/
theorem add_overflow_returns_zero_and_logs (a b : Int)
    (ha : i32InRange a) (hb : i32InRange b) (h : ¬ i32InRange (a + b)) :
    (add a b).value = 0 ∧ (add a b).log = [overflowMsg] := by
  rw [add_eq_of_overflow a b h]
  exact ⟨rfl, rfl⟩

theorem add_overflow_returns_zero_and_logs_witness :
    i32InRange i32Max ∧ i32InRange 1 ∧ ¬ i32InRange (i32Max + 1) ∧
      (add i32Max 1).value = 0 ∧ (add i32Max 1).log = [overflowMsg] :=
  ⟨by decide, by decide, by decide,
    add_overflow_returns_zero_and_logs i32Max 1 (by decide) (by decide) (by decide)⟩

/-- Claim C3: for every name whose length (UTF-8 bytes, Rust `name.len()`)
is at most 1000, `greet name` returns exactly `"Hello, " ++ name ++ "!"`,
the name interpolated verbatim. -/
theorem greet_short_returns_greeting (name : String)
    (h : name.utf8ByteSize ≤ 1000) :
    (greet name).value = "Hello, " ++ name ++ "!" := by
  rw [greet_eq_of_short name h]

theorem greet_short_returns_greeting_witness :
    ("World" : String).utf8ByteSize ≤ 1000 ∧
      (greet "World").value = "Hello, " ++ "World" ++ "!" :=
  ⟨by decide, greet_short_returns_greeting "World" (by decide)⟩

/-- Claim C4: for every name whose length (UTF-8 bytes) exceeds 1000,
`greet name` returns exactly "Error: Input too long", with no error raised
to the caller. -/
theorem greet_long_returns_error (name : String)
    (h : 1000 < name.utf8ByteSize) :
    (greet name).value = "Error: Input too long" := by
  rw [greet_eq_of_long name h]

theorem greet_long_returns_error_witness :
    1000 < (String.mk (List.replicate 1001 'x')).utf8ByteSize ∧
      (greet (String.mk (List.replicate 1001 'x'))).value = "Error: Input too long" :=
  ⟨by decide, greet_long_returns_error (String.mk (List.replicate 1001 'x')) (by decide)⟩

/-- Claim C5: boundary behaviour of `greet`: a name of byte length exactly
1000 yields the normal greeting, and a name of byte length exactly 1001
yields "Error: Input too long". -/
theorem greet_boundary (n₁ n₂ : String)
    (h₁ : n₁.utf8ByteSize = 1000) (h₂ : n₂.utf8ByteSize = 1001) :
    (greet n₁).value = "Hello, " ++ n₁ ++ "!" ∧
      (greet n₂).value = "Error: Input too long" := by
  constructor
  · rw [greet_eq_of_short n₁ (Nat.le_of_eq h₁)]
  · rw [greet_eq_of_long n₂ (by rw [h₂]; decide)]

theorem greet_boundary_witness :
    (String.mk (List.replicate 1000 'x')).utf8ByteSize = 1000 ∧
      (String.mk (List.replicate 1001 'x')).utf8ByteSize = 1001 ∧
      (greet (String.mk (List.replicate 1000 'x'))).value =
        "Hello, " ++ String.mk (List.replicate 1000 'x') ++ "!" ∧
      (greet (String.mk (List.replicate 1001 'x'))).value = "Error: Input too long" :=
  ⟨by decide, by decide,
    greet_boundary (String.mk (List.replicate 1000 'x'))
      (String.mk (List.replicate 1001 'x')) (by decide) (by decide)⟩

/-- Claim C6: for every input name, `greet name` is non-empty and is
exactly one of the two forms: the greeting `"Hello, " ++ name ++ "!"` or
the literal "Error: Input too long". -/
theorem greet_nonempty_two_forms (name : String) :
    (greet name).value ≠ "" ∧
      ((greet name).value = "Hello, " ++ name ++ "!" ∨
        (greet name).value = "Error: Input too long") := by
  by_cases h : 1000 < name.utf8ByteSize
  · rw [greet_eq_of_long name h]
    exact ⟨by decide, Or.inr rfl⟩
  · rw [greet_eq_of_short name (Nat.not_lt.mp h)]
    exact ⟨hello_ne_empty name, Or.inl rfl⟩

/-- Claim C7: `add` and `greet` are deterministic and stateless: equal
arguments give equal results (value and log), and `greet` emits no log
message on any input. -/
theorem add_greet_deterministic_stateless :
    (∀ a₁ b₁ a₂ b₂ : Int, a₁ = a₂ → b₁ = b₂ → add a₁ b₁ = add a₂ b₂) ∧
    (∀ n₁ n₂ : String, n₁ = n₂ → greet n₁ = greet n₂) ∧
    (∀ name : String, (greet name).log = []) := by
  refine ⟨?_, ?_, ?_⟩
  · intro a₁ b₁ a₂ b₂ ha hb
    rw [ha, hb]
  · intro n₁ n₂ h
    rw [h]
  · intro name
    by_cases h : 1000 < name.utf8ByteSize
    · rw [greet_eq_of_long name h]
    · rw [greet_eq_of_short name (Nat.not_lt.mp h)]

theorem add_greet_deterministic_stateless_witness :
    add 2 3 = add 2 3 ∧ greet "World" = greet "World" ∧ (greet "World").log = [] :=
  ⟨add_greet_deterministic_stateless.1 2 3 2 3 rfl rfl,
    add_greet_deterministic_stateless.2.1 "World" "World" rfl,
    add_greet_deterministic_stateless.2.2 "World"⟩

/-- Claim C8: concrete cases: `add 2 3 = 5`; `add i32Max 1 = 0`;
`greet "World" = "Hello, World!"`; `greet` on 1001 copies of 'x' returns
"Error: Input too long". -/
theorem concrete_cases :
    (add 2 3).value = 5 ∧ (add i32Max 1).value = 0 ∧
      (greet "World").value = "Hello, World!" ∧
      (greet (String.mk (List.replicate 1001 'x'))).value = "Error: Input too long" :=
  ⟨by decide, by decide, by decide, by decide⟩

/-- Claim C9: `greet` measures the name in UTF-8 bytes, not characters:
there is a name of at most 1000 characters whose UTF-8 encoding exceeds
1000 bytes on which `greet` returns "Error: Input too long" (501 copies of
'é', 2 bytes each). -/
theorem greet_length_in_utf8_bytes :
    ∃ name : String, name.length ≤ 1000 ∧ 1000 < name.utf8ByteSize ∧
      (greet name).value = "Error: Input too long" :=
  ⟨String.mk (List.replicate 501 'é'), by decide, by decide, by decide⟩

/-- Claim C10: both operations are total: `add` always returns a
signed-32-bit value (0 on the guarded overflow path) and `greet` always
returns a (non-empty) string. -/
theorem add_greet_total :
    (∀ a b : Int, i32InRange ((add a b).value)) ∧
    (∀ name : String, (greet name).value ≠ "") := by
  constructor
  · intro a b
    by_cases h : i32InRange (a + b)
    · rw [add_eq_of_inRange a b h]
      exact h
    · rw [add_eq_of_overflow a b h]
      decide
  · intro name
    by_cases h : 1000 < name.utf8ByteSize
    · rw [greet_eq_of_long name h]
      decide
    · rw [greet_eq_of_short name (Nat.not_lt.mp h)]
      exact hello_ne_empty name
